import Mathlib

/-!
# sysbench WebAssembly runtime layer: a shallow embedding

The definitions below embed `src/sb_wasm.c` (the generic runtime layer) and the
parts of `src/sb_wasmedge.c` (the WasmEdge adapter) that load and tear down the
test descriptor.

Conventions.

* A C integer of width `w` is its bit pattern, a `Nat` below `2 ^ w`; signed
  conversions, shifts and truncations are written out with `% 2 ^ w`.
* A pointer that may be `NULL` is an `Option`.
* The file-scope variables of a translation unit are the fields of a state
  record which every function takes and returns.
* A function that can dereference `NULL` or index outside an array returns
  `none` at that point (the C behaviour is undefined there).
* Calls into the engine adapter and calls of `free` are recorded in traces kept
  in the state, so that "is called with" and "releases" can be stated.
-/

namespace SbWasm

/-! ## Machine integers -/

/-- Conversion `int32_t → int64_t`: sign extension of a 32-bit pattern. -/
def sext32to64 (x : Nat) : Nat :=
  if x % 2 ^ 32 < 2 ^ 31 then x % 2 ^ 32 else x % 2 ^ 32 + (2 ^ 64 - 2 ^ 32)

/-- Left shift of an `int64_t` pattern, the bits shifted out are dropped. -/
def shl64 (v n : Nat) : Nat := (v <<< n) % 2 ^ 64

/-- Right shift of an `int64_t`: arithmetic, the sign bit fills the top. -/
def asr64 (v n : Nat) : Nat :=
  if v % 2 ^ 64 < 2 ^ 63 then (v % 2 ^ 64) >>> n
  else ((v % 2 ^ 64) >>> n) + (2 ^ 64 - 2 ^ (64 - n))

/-- Conversion `int64_t → int32_t`: the low 32 bits are kept. -/
def trunc32 (v : Nat) : Nat := v % 2 ^ 32

/-! ## Address codec (`sb_wasm.c`, lines 72-79) -/

/-- `sb_wasm_addr_encode`: `((int64_t)addr << 32) | size`.  Both operands of `|`
are `int64_t`: `size` is promoted from `int32_t`, that is sign extended.  The
shift of a negative `addr` is the shift of its pattern, as compilers emit it. -/
def sb_wasm_addr_encode (addr size : Nat) : Nat :=
  shl64 (sext32to64 addr) 32 ||| sext32to64 size

/-- `sb_wasm_addr_decode`: `*addr = (val >> 32) & 0xffffffff; *size = val & 0xffffffff;`
The constant `0xffffffff` is an `unsigned int`, converted to `int64_t` without
sign extension; the results are stored into `int32_t` objects.  The pair is
`(*addr, *size)`. -/
def sb_wasm_addr_decode (val : Nat) : Nat × Nat :=
  (trunc32 (asr64 val 32 &&& 0xffffffff), trunc32 (val &&& 0xffffffff))

/-! ## Runtime name mapping (`sb_wasm.c`, lines 58-70) -/

/-- `sb_wasm_runtime_t`, the engine tags. -/
inductive sb_wasm_runtime_t where
  | SB_WASM_RUNTIME_WAMR
  | SB_WASM_RUNTIME_WASMEDGE
  | SB_WASM_RUNTIME_WASMER
  | SB_WASM_RUNTIME_WASMTIME
  | SB_WASM_RUNTIME_UNKNOWN
  deriving DecidableEq, Repr

open sb_wasm_runtime_t

/-- A `const char *` argument is the string of the characters before its
terminator, so it holds no NUL character. -/
def IsCString (s : String) : Prop := ∀ c ∈ s.data, c.toNat ≠ 0

instance (s : String) : Decidable (IsCString s) := by
  unfold IsCString
  infer_instance

/-- The libc `strcmp` on the characters before the terminator: the difference of
the first pair of characters that differ, the terminator counting as `0`. -/
def strcmp : List Char → List Char → Int
  | [], [] => 0
  | [], b :: _ => - (b.toNat : Int)
  | a :: _, [] => (a.toNat : Int)
  | a :: as, b :: bs => if a = b then strcmp as bs else (a.toNat : Int) - (b.toNat : Int)

/-- `sb_wasm_runtime_name_to_type`: a chain of `!strcmp(runtime, "...")` tests. -/
def sb_wasm_runtime_name_to_type (runtime : String) : sb_wasm_runtime_t :=
  if strcmp runtime.data "wamr".data = 0 then SB_WASM_RUNTIME_WAMR
  else if strcmp runtime.data "wasmedge".data = 0 then SB_WASM_RUNTIME_WASMEDGE
  else if strcmp runtime.data "wasmer".data = 0 then SB_WASM_RUNTIME_WASMER
  else if strcmp runtime.data "wasmtime".data = 0 then SB_WASM_RUNTIME_WASMTIME
  else SB_WASM_RUNTIME_UNKNOWN

/-! ## Data model of `sb_wasm.c`

The headers `sb_wasm.h`, `sysbench.h` and `sb_util.h` are not part of the
sources at hand; the records below hold the fields the code reads and writes. -/

/-- Priorities passed to `log_text`. -/
inductive log_msg_priority_t where
  | LOG_FATAL
  | LOG_WARNING
  | LOG_INFO
  | LOG_DEBUG
  deriving DecidableEq, Repr

open log_msg_priority_t

/-- One variadic argument of a `log_text` call. -/
inductive LogArg where
  | str (s : Option String)
  | int (n : Int)
  | nat (n : Nat)
  deriving DecidableEq, Repr

/-- One `log_text(priority, format, args...)` call. -/
structure LogEntry where
  priority : log_msg_priority_t
  format : String
  args : List LogArg
  deriving DecidableEq, Repr

/-- What a call of `free` released. -/
inductive Freed where
  | string (s : String)
  | args_array (entries : Nat)
  | contexts (slots : Nat)
  deriving DecidableEq, Repr

/-- `sb_arg_t`, one entry of the argument schema; an entry whose `name` is
`NULL` ends the array. -/
structure sb_arg_t where
  name : Option String
  desc : Option String
  type : Nat
  value : Option String
  validate : Option Nat
  deriving DecidableEq, Repr

/-- The operation tables a descriptor can hold (`sbtest.ops = ...`). -/
inductive sb_operations_t where
  | unset
  | wasm_ops
  | wasmedge_ops
  deriving DecidableEq, Repr

/-- `sb_test_t`, the test descriptor: the fields written by the loaders. -/
structure sb_test_t where
  sname : Option String
  lname : Option String
  args : Option (List sb_arg_t)
  ops : sb_operations_t
  deriving DecidableEq, Repr

/-- `sb_wasm_module`: the module bytes and the resource limits.
`buffer_size` is kept as the `int64_t` value that `int64_t carrier =
wasm_module->buffer_size` reads. -/
structure sb_wasm_module where
  file_buffer : List Nat
  file_size : Nat
  heap_size : Nat
  stack_size : Nat
  max_thread_num : Nat
  buffer_size : Nat
  deriving DecidableEq, Repr

/-- `sb_wasm_sandbox`: the engine context (an opaque pointer), the recorded
buffer address (an `int32_t` pattern) and the adapter's entry points.  `W` is
the state of the engine; every entry point may change it.  `function_apply`
takes the in/out `int64_t` and returns the status together with the value left
in it. -/
structure sb_wasm_sandbox (W : Type) where
  context : Nat
  buffer_addr : Nat
  function_available : W → Nat → String → Bool × W
  function_apply : W → Nat → String → Int → Nat → (Int × Nat) × W

/-- `sb_wasm_runtime`: the capability table of the selected engine;
`load_module` may be `NULL`. -/
structure sb_wasm_runtime (W : Type) where
  init : W → Bool × W
  load_module : Option (W → Option String → Option sb_wasm_module × W)
  create_sandbox : W → Option sb_wasm_module → Int → Option (sb_wasm_sandbox W) × W

/-- The calls made through the capability tables, in the order they happen. -/
inductive AdapterCall where
  | init
  | load_module (path : Option String)
  | create_sandbox (thread_id : Int)
  | function_available (context : Nat) (name : String)
  | function_apply (context : Nat) (name : String) (thread_id : Int) (value : Nat)
  deriving DecidableEq, Repr

/-- `sb_event_t`: the request type and the `u.wasm_request` payload (`int64_t`). -/
structure sb_event_t where
  type : Nat
  wasm_request : Nat
  deriving DecidableEq, Repr

/-- Everything `sb_wasm.c` takes from outside the sources at hand: the values of
the macros `SUCCESS`, `FAILURE` and `SB_REQ_TYPE_WASM`, the `HAVE_*` build
switches, the engine constructors, `basename` (it returns the base name and
the content it leaves in the buffer it was given), `sb_load_file_to_buffer`, the
value `SB_SET_ENV_CONFIG` leaves in a limit (by the name of its knob),
`sb_globals.threads` and whether `calloc` of that many pointers succeeds. -/
structure Host (W : Type) where
  SUCCESS : Int
  FAILURE : Int
  SB_REQ_TYPE_WASM : Nat
  HAVE_WAMR : Bool
  HAVE_WASMEDGE : Bool
  HAVE_WASMER : Bool
  HAVE_WASMTIME : Bool
  create_wamr_runtime : W → Option (sb_wasm_runtime W) × W
  create_wasmedge_runtime : W → Option (sb_wasm_runtime W) × W
  create_wasmer_runtime : W → Option (sb_wasm_runtime W) × W
  create_wasmtime_runtime : W → Option (sb_wasm_runtime W) × W
  basename : String → String × String
  sb_load_file_to_buffer : Option String → Option (List Nat)
  SB_SET_ENV_CONFIG : String → Nat
  threads : Nat
  calloc_ok : Nat → Bool

/-- The file-scope variables of `sb_wasm.c` (`sbtest`, `wasm_runtime`,
`wasm_module`, `sandboxs`), the engine state and the traces. -/
structure State (W : Type) where
  sbtest : sb_test_t
  wasm_runtime : Option (sb_wasm_runtime W)
  wasm_module : Option sb_wasm_module
  sandboxs : Option (List (Option (sb_wasm_sandbox W)))
  world : W
  log : List LogEntry
  calls : List AdapterCall
  freed : List Freed

/-- `log_text`: appends one entry to the log. -/
def log_text {W : Type} (st : State W) (p : log_msg_priority_t) (format : String)
    (args : List LogArg) : State W :=
  { st with log := st.log ++ [⟨p, format, args⟩] }

/-- Reading `table[i]` for an `int` index: `none` when the table is `NULL` or
the index is outside it. -/
def readSlot {α : Type} (table : Option (List α)) (i : Int) : Option α :=
  match table with
  | none => none
  | some t => if 0 ≤ i ∧ i.toNat < t.length then t.get? i.toNat else none

/-- Writing `table[i] = v` for an `int` index: `none` when the table is `NULL`
or the index is outside it. -/
def writeSlot {α : Type} (table : Option (List α)) (i : Int) (v : α) : Option (List α) :=
  match table with
  | none => none
  | some t => if 0 ≤ i ∧ i.toNat < t.length then some (t.set i.toNat v) else none

/-- Whether the engine with the given tag is compiled into the binary. -/
def Host.compiled {W : Type} (h : Host W) : sb_wasm_runtime_t → Bool
  | SB_WASM_RUNTIME_WAMR => h.HAVE_WAMR
  | SB_WASM_RUNTIME_WASMEDGE => h.HAVE_WASMEDGE
  | SB_WASM_RUNTIME_WASMER => h.HAVE_WASMER
  | SB_WASM_RUNTIME_WASMTIME => h.HAVE_WASMTIME
  | SB_WASM_RUNTIME_UNKNOWN => false

/-- The second half of `sb_load_wasm` (`sb_wasm.c`, lines 118-131), reached
after the `switch` selected an engine. -/
def sb_load_wasm_names {W : Type} (h : Host W) (st : State W) (testname : Option String) :
    Option sb_test_t × State W :=
  match testname with
  | some name =>
    let tmp := name
    let t1 := { st.sbtest with sname := some (h.basename tmp).1,
                               lname := some (h.basename tmp).2 }
    let t2 := { t1 with ops := sb_operations_t.wasm_ops }
    (some t2, { st with sbtest := t2 })
  | none =>
    (none, log_text st LOG_FATAL "no wasm file name provided" [])

/-- The `case` of the `switch` for one engine: `wasm_runtime = create_..._runtime()`. -/
def select_runtime {W : Type} (st : State W)
    (create : W → Option (sb_wasm_runtime W) × W) : State W :=
  let r := create st.world
  { st with wasm_runtime := r.1, world := r.2 }

/-- `sb_load_wasm` (`sb_wasm.c`, lines 89-131).  A `case` guarded by `#ifdef
HAVE_...` exists only when the switch is on; otherwise the tag falls to
`default`.  The result is the descriptor `&sbtest` points to, or `none` for
`NULL`. -/
def sb_load_wasm {W : Type} (h : Host W) (st : State W) (testname : Option String)
    (runtime : String) : Option sb_test_t × State W :=
  let st0 := log_text st LOG_DEBUG "load wasm using runtime: %s" [LogArg.str (some runtime)]
  let unsupported : Option sb_test_t × State W :=
    (none, log_text st0 LOG_FATAL "unsupported wasm runtime: %s" [LogArg.str (some runtime)])
  match sb_wasm_runtime_name_to_type runtime with
  | SB_WASM_RUNTIME_WAMR =>
    if h.HAVE_WAMR then sb_load_wasm_names h (select_runtime st0 h.create_wamr_runtime) testname
    else unsupported
  | SB_WASM_RUNTIME_WASMEDGE =>
    if h.HAVE_WASMEDGE then
      sb_load_wasm_names h (select_runtime st0 h.create_wasmedge_runtime) testname
    else unsupported
  | SB_WASM_RUNTIME_WASMER =>
    if h.HAVE_WASMER then
      sb_load_wasm_names h (select_runtime st0 h.create_wasmer_runtime) testname
    else unsupported
  | SB_WASM_RUNTIME_WASMTIME =>
    if h.HAVE_WASMTIME then
      sb_load_wasm_names h (select_runtime st0 h.create_wasmtime_runtime) testname
    else unsupported
  | SB_WASM_RUNTIME_UNKNOWN => unsupported

/-! ## Teardown of the descriptor (`sb_wasm.c`, lines 133-146) -/

/-- The macro `xfree(ptr)`: `if (ptr != NULL) free(ptr); ptr = NULL;`, for a
string.  Returns the new value of `ptr` and the extended trace of `free`. -/
def xfree (ptr : Option String) (freed : List Freed) : Option String × List Freed :=
  match ptr with
  | some s => (none, freed ++ [Freed.string s])
  | none => (none, freed)

/-- The loop `for (i = 0; sbtest.args[i].name != NULL; i++)` with its three
`xfree` calls, from the entry at hand on.  Returns the entries as the loop
leaves them and the trace; `none` when the loop runs off an array that has no
terminating entry. -/
def free_args_entries : List sb_arg_t → List Freed → Option (List sb_arg_t × List Freed)
  | [], _ => none
  | a :: rest, freed =>
    match a.name with
    | none => some (a :: rest, freed)
    | some _ =>
      let r1 := xfree a.name freed
      let r2 := xfree a.desc r1.2
      let r3 := xfree a.value r2.2
      match free_args_entries rest r3.2 with
      | none => none
      | some (rest1, freed1) =>
        some ({ a with name := r1.1, desc := r2.1, value := r3.1 } :: rest1, freed1)

/-- The body shared by both `sb_wasm_done` functions: the `if (sbtest.args !=
NULL)` block followed by `xfree(sbtest.sname); xfree(sbtest.lname);`. -/
def free_descriptor (t : sb_test_t) (freed : List Freed) : Option (sb_test_t × List Freed) :=
  let afterArgs : Option (Option (List sb_arg_t) × List Freed) :=
    match t.args with
    | none => some (none, freed)
    | some arr =>
      match free_args_entries arr freed with
      | none => none
      | some (arr1, freed1) => some (none, freed1 ++ [Freed.args_array arr1.length])
  match afterArgs with
  | none => none
  | some (args1, freed1) =>
    let r1 := xfree t.sname freed1
    let r2 := xfree t.lname r1.2
    some ({ t with args := args1, sname := r1.1, lname := r2.1 }, r2.2)

/-- `sb_wasm_done` of `sb_wasm.c`. -/
def sb_wasm_done {W : Type} (st : State W) : Option (State W) :=
  match free_descriptor st.sbtest st.freed with
  | none => none
  | some (t, freed) => some { st with sbtest := t, freed := freed }

/-! ## Events (`sb_wasm.c`, lines 148-176) -/

/-- Conversion `int → int64_t`, as a 64-bit pattern. -/
def int_to_int64 (i : Int) : Nat := (i % 2 ^ 64).toNat

/-- `sb_wasm_op_next_event`: reads `sandboxs[thread_id]` and builds the request. -/
def sb_wasm_op_next_event {W : Type} (h : Host W) (st : State W) (thread_id : Int) :
    Option sb_event_t :=
  match readSlot st.sandboxs thread_id with
  | none => none
  | some _ => some { type := h.SB_REQ_TYPE_WASM, wasm_request := int_to_int64 thread_id }

/-- `sb_wasm_op_execute_event`.  Returns the status, the event `r` points to as
the call leaves it, and the state. -/
def sb_wasm_op_execute_event {W : Type} (h : Host W) (st : State W) (r : Option sb_event_t)
    (thread_id : Int) : Option (Int × Option sb_event_t × State W) :=
  match r with
  | some ev =>
    match readSlot st.sandboxs thread_id with
    | some (some sandbox) =>
      let res := sandbox.function_apply st.world sandbox.context "event" thread_id ev.wasm_request
      some (res.1.1, some { ev with wasm_request := res.1.2 },
        { st with world := res.2,
                  calls := st.calls ++ [AdapterCall.function_apply sandbox.context "event"
                    thread_id ev.wasm_request] })
    | _ => none
  | none => some (h.FAILURE, none, st)

/-- `sb_wasm_loaded`. -/
def sb_wasm_loaded {W : Type} (st : State W) : Bool := st.wasm_runtime.isSome

/-! ## Initialisation (`sb_wasm.c`, lines 178-253) -/

/-- `sb_wasm_load_module`, the generic loader.  The limits of the fresh module
are not written here; `sb_wasm_op_init` assigns all four before any use. -/
def sb_wasm_load_module {W : Type} (h : Host W) (st : State W) (filepath : Option String) :
    Option sb_wasm_module × State W :=
  match h.sb_load_file_to_buffer filepath with
  | none =>
    (none, log_text st LOG_FATAL "load wasm module file[%s] into buffer failed"
      [LogArg.str filepath])
  | some buffer =>
    (some { file_buffer := buffer, file_size := buffer.length, heap_size := 0,
            stack_size := 0, max_thread_num := 0, buffer_size := 0 },
      log_text st LOG_INFO "load %d bytes from %s"
        [LogArg.nat buffer.length, LogArg.str filepath])

/-- `sb_wasm_op_init`.  Returns the status and the state. -/
def sb_wasm_op_init {W : Type} (h : Host W) (st : State W) : Option (Int × State W) :=
  match st.wasm_runtime with
  | none => none
  | some rt =>
    let i := rt.init st.world
    let st1 := { st with world := i.2, calls := st.calls ++ [AdapterCall.init] }
    if !i.1 then
      some (h.FAILURE, log_text st1 LOG_FATAL "init wasm vm failed" [])
    else
      let st2 := log_text st1 LOG_INFO "load wasm module from file %s"
        [LogArg.str st1.sbtest.lname]
      let loaded : Option sb_wasm_module × State W :=
        match rt.load_module with
        | some load =>
          let l := load st2.world st2.sbtest.lname
          (l.1, { st2 with world := l.2,
                           calls := st2.calls ++ [AdapterCall.load_module st2.sbtest.lname] })
        | none => sb_wasm_load_module h st2 st2.sbtest.lname
      let st3 := { loaded.2 with wasm_module := loaded.1 }
      match loaded.1 with
      | none => some (h.FAILURE, log_text st3 LOG_FATAL "load wasm module failed" [])
      | some m =>
        let m1 := { m with heap_size := h.SB_SET_ENV_CONFIG "WASM_HEAP_SIZE",
                           stack_size := h.SB_SET_ENV_CONFIG "WASM_STACK_SIZE",
                           max_thread_num := h.SB_SET_ENV_CONFIG "WASM_MAX_THREAD_NUM",
                           buffer_size := h.SB_SET_ENV_CONFIG "WASM_BUFFER_SIZE" }
        let st4 := { st3 with wasm_module := some m1 }
        if h.calloc_ok h.threads then
          some (h.SUCCESS, { st4 with sandboxs := some (List.replicate h.threads none) })
        else
          some (h.FAILURE, { st4 with sandboxs := none })

/-- `sb_wasm_op_done`. -/
def sb_wasm_op_done {W : Type} (h : Host W) (st : State W) : Int × State W :=
  (h.SUCCESS, st)

/-- The value of an `int32_t` pattern, as `%d` prints it. -/
def int32_value (x : Nat) : Int :=
  if x % 2 ^ 32 < 2 ^ 31 then (x % 2 ^ 32 : Nat) else ((x % 2 ^ 32 : Nat) : Int) - 2 ^ 32

/-- `sb_wasm_op_thread_init`.  Returns the status and the state.  The table slot
holds a pointer to the sandbox, so the write to `sandbox->buffer_addr` shows in
the slot. -/
def sb_wasm_op_thread_init {W : Type} (h : Host W) (st : State W) (thread_id : Int) :
    Option (Int × State W) :=
  match st.wasm_runtime with
  | none => none
  | some rt =>
    let c := rt.create_sandbox st.world st.wasm_module thread_id
    let st1 := { st with world := c.2,
                         calls := st.calls ++ [AdapterCall.create_sandbox thread_id] }
    match c.1 with
    | none =>
      some (h.FAILURE, log_text st1 LOG_FATAL "create wasm sandbox for thread %d failed"
        [LogArg.int thread_id])
    | some sandbox =>
      match writeSlot st1.sandboxs thread_id (some sandbox) with
      | none => none
      | some table =>
        let a := sandbox.function_available st1.world sandbox.context "create_buffer"
        let st2 := { st1 with sandboxs := some table, world := a.2,
                              calls := st1.calls ++
                                [AdapterCall.function_available sandbox.context "create_buffer"] }
        if a.1 then
          match st2.wasm_module with
          | none => none
          | some m =>
            let carrier := m.buffer_size
            let f := sandbox.function_apply st2.world sandbox.context "create_buffer"
              thread_id carrier
            let st3 := { st2 with world := f.2,
                                  calls := st2.calls ++
                                    [AdapterCall.function_apply sandbox.context "create_buffer"
                                      thread_id carrier] }
            if f.1.1 ≠ h.SUCCESS then
              some (h.FAILURE, log_text st3 LOG_FATAL "create buffer for sandbox %d failed"
                [LogArg.int thread_id])
            else
              let d := sb_wasm_addr_decode f.1.2
              let buffer_size := d.2
              let sandbox1 := { sandbox with buffer_addr := d.1 }
              let st4 := { st3 with sandboxs := some (table.set thread_id.toNat (some sandbox1)) }
              some (h.SUCCESS, log_text st4 LOG_INFO "create a buffer(%d) for sandbox %d at %p"
                [LogArg.int (int32_value buffer_size), LogArg.int thread_id,
                  LogArg.nat sandbox1.buffer_addr])
        else
          some (h.SUCCESS, log_text st2 LOG_WARNING
            "'create_buffer' function not found in wasm module" [])

/-! ## The operations of `sb_wasm.c` as steps on the state -/

/-- One call of a function of `sb_wasm.c` that can write the file-scope state. -/
inductive Op where
  | load_wasm (testname : Option String) (runtime : String)
  | wasm_done
  | next_event (thread_id : Int)
  | execute_event (r : Option sb_event_t) (thread_id : Int)
  | op_init
  | op_done
  | thread_init (thread_id : Int)
  deriving DecidableEq, Repr

/-- The state a call leaves; `none` when the call has no defined outcome. -/
def step {W : Type} (h : Host W) (op : Op) (st : State W) : Option (State W) :=
  match op with
  | Op.load_wasm testname runtime => some (sb_load_wasm h st testname runtime).2
  | Op.wasm_done => sb_wasm_done st
  | Op.next_event thread_id => (sb_wasm_op_next_event h st thread_id).map (fun _ => st)
  | Op.execute_event r thread_id =>
    (sb_wasm_op_execute_event h st r thread_id).map (fun x => x.2.2)
  | Op.op_init => (sb_wasm_op_init h st).map (fun x => x.2)
  | Op.op_done => some (sb_wasm_op_done h st).2
  | Op.thread_init thread_id => (sb_wasm_op_thread_init h st thread_id).map (fun x => x.2)

/-- Slot `i` of the sandbox table holds a sandbox. -/
def populated {W : Type} (st : State W) (i : Int) : Bool :=
  match readSlot st.sandboxs i with
  | some (some _) => true
  | _ => false

/-- The argument schema is absent, or an array that holds a terminating entry
(one whose `name` is `NULL`), as `sb_wasmedge_set_test_args` builds it. -/
def args_terminated (t : sb_test_t) : Bool :=
  match t.args with
  | none => true
  | some arr => arr.any (fun a => a.name.isNone)

/-! ## The WasmEdge adapter (`sb_wasmedge.c`, lines 156-231) -/

namespace WasmEdge

/-- What the adapter's loader takes from outside: `basename` (the base name and
the content it leaves in its buffer), `sb_globals.threads` and whether `calloc`
of that many pointers succeeds. -/
structure Host where
  basename : String → String × String
  threads : Nat
  calloc_ok : Nat → Bool

/-- The file-scope variables of `sb_wasmedge.c` used by the loader (`sbtest`,
`contexts`) and the traces. -/
structure State where
  sbtest : sb_test_t
  contexts : Option (List (Option Nat))
  log : List LogEntry
  freed : List Freed
  deriving DecidableEq, Repr

/-- `log_text`: appends one entry to the log. -/
def log_text (st : State) (p : log_msg_priority_t) (format : String)
    (args : List LogArg) : State :=
  { st with log := st.log ++ [⟨p, format, args⟩] }

/-- `sb_wasm_done` of `sb_wasmedge.c`: `xfree(contexts)` and then the same
release of the descriptor as in `sb_wasm.c`. -/
def sb_wasm_done (st : State) : Option State :=
  let freed0 := match st.contexts with
    | some c => st.freed ++ [Freed.contexts c.length]
    | none => st.freed
  match free_descriptor st.sbtest freed0 with
  | none => none
  | some (t, freed) => some { st with contexts := none, sbtest := t, freed := freed }

/-- `sb_load_wasm` of `sb_wasmedge.c`.  The result is the descriptor `&sbtest`
points to, or `none` for `NULL`, and the state; the outer `none` is a call
with no defined outcome (teardown running off an unterminated schema). -/
def sb_load_wasm (h : Host) (st : State) (testname : Option String) (argc : Int)
    (argv : List String) : Option (Option sb_test_t × State) :=
  let _ := argc
  let _ := argv
  let error : State → Option (Option sb_test_t × State) := fun s =>
    match sb_wasm_done s with
    | none => none
    | some s1 => some (none, s1)
  match testname with
  | none => error (log_text st LOG_FATAL "no wasm name provided" [])
  | some name =>
    let tmp := name
    let t1 := { st.sbtest with sname := some (h.basename tmp).1,
                               lname := some (h.basename tmp).2 }
    let t2 := { t1 with ops := sb_operations_t.wasmedge_ops }
    let st1 := { st with sbtest := t2 }
    if h.threads ≠ 1 then
      error (log_text st1 LOG_FATAL "wasmedge script %s only support a single thread"
        [LogArg.str st1.sbtest.sname])
    else
      if h.calloc_ok h.threads then
        let st2 := { st1 with contexts := some (List.replicate h.threads none) }
        some (some st2.sbtest, st2)
      else
        error { st1 with contexts := none }

end WasmEdge

/-! ## The allocations a descriptor owns

What teardown is to release, written from the descriptor alone: the strings of
the schema entries in front of the terminating entry, the schema array, the
short name and the long name. -/

/-- The allocation behind a string pointer; nothing for `NULL`. -/
def string_allocation (p : Option String) : List Freed :=
  match p with
  | some s => [Freed.string s]
  | none => []

/-- The strings owned by the schema entries in front of the terminating entry:
name, description and value of each entry, where present. -/
def schema_allocations : List sb_arg_t → List Freed
  | [] => []
  | a :: rest =>
    match a.name with
    | none => []
    | some _ =>
      string_allocation a.name ++ string_allocation a.desc ++ string_allocation a.value ++
        schema_allocations rest

/-- Everything a descriptor owns: the strings of its schema entries, the schema
array, the short name and the long name. -/
def descriptor_allocations (t : sb_test_t) : List Freed :=
  (match t.args with
    | none => []
    | some arr => schema_allocations arr ++ [Freed.args_array arr.length]) ++
  string_allocation t.sname ++ string_allocation t.lname

/-- The allocation behind `contexts` of `sb_wasmedge.c`; nothing for `NULL`. -/
def WasmEdge.contexts_allocation (c : Option (List (Option Nat))) : List Freed :=
  match c with
  | some table => [Freed.contexts table.length]
  | none => []

/-! ## A small engine, used to evaluate the definitions on concrete inputs -/

/-- A sandbox of an engine whose state is one number: every guest call succeeds
with status `0` and leaves the engine state in the in/out value;
`function_available` answers `avail` for every name. -/
def exampleSandbox (avail : Bool) : sb_wasm_sandbox Nat :=
  { context := 7
    buffer_addr := 0
    function_available := fun w _ _ => (avail, w)
    function_apply := fun w _ _ _ _ => ((0, w), w) }

/-- An engine without a loader of its own whose `create_sandbox` succeeds or
fails as `create` says. -/
def exampleRuntime (avail create : Bool) : sb_wasm_runtime Nat :=
  { init := fun w => (true, w)
    load_module := none
    create_sandbox := fun w _ _ => (if create then some (exampleSandbox avail) else none, w) }

/-- A build with WAMR only, two threads, `SUCCESS = 0` and `FAILURE = 1`. -/
def exampleHost : Host Nat :=
  { SUCCESS := 0
    FAILURE := 1
    SB_REQ_TYPE_WASM := 9
    HAVE_WAMR := true
    HAVE_WASMEDGE := false
    HAVE_WASMER := false
    HAVE_WASMTIME := false
    create_wamr_runtime := fun w => (some (exampleRuntime true true), w)
    create_wasmedge_runtime := fun w => (none, w)
    create_wasmer_runtime := fun w => (none, w)
    create_wasmtime_runtime := fun w => (none, w)
    basename := fun s => (s, s)
    sb_load_file_to_buffer := fun _ => some [0, 97, 115, 109]
    SB_SET_ENV_CONFIG := fun _ => 64
    threads := 2
    calloc_ok := fun _ => true }

/-- The state before `sb_load_wasm`: every file-scope variable zero. -/
def initialState (w : Nat) : State Nat :=
  { sbtest := { sname := none, lname := none, args := none, ops := sb_operations_t.unset }
    wasm_runtime := none
    wasm_module := none
    sandboxs := none
    world := w
    log := []
    calls := []
    freed := [] }

/-- A state after `sb_wasm_op_init` with two threads: engine selected, module
loaded, a table of two empty slots. -/
def readyState (w : Nat) (avail create : Bool) : State Nat :=
  { initialState w with
    wasm_runtime := some (exampleRuntime avail create)
    wasm_module := some { file_buffer := [], file_size := 0, heap_size := 64,
                          stack_size := 64, max_thread_num := 64, buffer_size := 64 }
    sandboxs := some [none, none] }

/-- A descriptor holding a schema of two entries and the terminator. -/
def exampleDescriptor : sb_test_t :=
  { sname := some "t.wasm"
    lname := some "dir/t.wasm"
    args := some [ { name := some "n", desc := some "count", type := 1, value := none,
                     validate := none },
                   { name := some "m", desc := none, type := 1, value := some "3",
                     validate := none },
                   { name := none, desc := none, type := 0, value := none, validate := none } ]
    ops := sb_operations_t.wasm_ops }

/-- The WasmEdge loader's surroundings with the given thread count. -/
def WasmEdge.exampleHost (threads : Nat) : WasmEdge.Host :=
  { basename := fun s => (s, s), threads := threads, calloc_ok := fun _ => true }

/-- A state of `sb_wasmedge.c` holding the given descriptor. -/
def WasmEdge.exampleState (t : sb_test_t) : WasmEdge.State :=
  { sbtest := t, contexts := none, log := [], freed := [] }

/-! ## Theorems -/

theorem sext32to64_of_lt {x : Nat} (h : x < 2 ^ 31) : sext32to64 x = x := by
  unfold sext32to64
  have h1 : x % 2 ^ 32 = x := Nat.mod_eq_of_lt (by omega)
  rw [h1, if_pos h]

theorem sext32to64_of_ge {x : Nat} (h : 2 ^ 31 ≤ x) (h2 : x < 2 ^ 32) :
    sext32to64 x = x + (2 ^ 64 - 2 ^ 32) := by
  unfold sext32to64
  have h1 : x % 2 ^ 32 = x := Nat.mod_eq_of_lt h2
  rw [h1, if_neg (by omega)]

theorem asr64_and_mask (val : Nat) (h : val < 2 ^ 64) :
    asr64 val 32 &&& 0xffffffff = (val / 2 ^ 32) % 2 ^ 32 := by
  have hm : (0xffffffff : Nat) = 2 ^ 32 - 1 := by norm_num
  have hk : (2 : Nat) ^ 64 - 2 ^ (64 - 32) = 2 ^ 32 * (2 ^ 32 - 1) := by norm_num
  unfold asr64
  rw [hm, Nat.and_pow_two_sub_one_eq_mod, Nat.mod_eq_of_lt h, Nat.shiftRight_eq_div_pow]
  split
  · rfl
  · rw [hk, Nat.add_mul_mod_self_left]

/-- Decoding reads bits 63..32 and bits 31..0 of the handle. -/
theorem sb_wasm_addr_decode_eq (val : Nat) (h : val < 2 ^ 64) :
    sb_wasm_addr_decode val = ((val / 2 ^ 32) % 2 ^ 32, val % 2 ^ 32) := by
  have hm : (0xffffffff : Nat) = 2 ^ 32 - 1 := by norm_num
  unfold sb_wasm_addr_decode trunc32
  rw [asr64_and_mask val h, hm, Nat.and_pow_two_sub_one_eq_mod, Nat.mod_mod, Nat.mod_mod]

/-- The handle built from a size below `2 ^ 31` is `addr * 2 ^ 32 + size`. -/
theorem sb_wasm_addr_encode_small (addr size : Nat) (ha : addr < 2 ^ 32)
    (hs : size < 2 ^ 31) :
    sb_wasm_addr_encode addr size = 2 ^ 32 * addr + size := by
  unfold sb_wasm_addr_encode shl64
  rw [sext32to64_of_lt hs, Nat.shiftLeft_eq]
  have hsh : sext32to64 addr * 2 ^ 32 % 2 ^ 64 = 2 ^ 32 * addr := by
    unfold sext32to64
    rw [Nat.mod_eq_of_lt ha]
    split <;> omega
  rw [hsh]
  exact (Nat.mul_add_lt_is_or (by omega) addr).symm

/-- The handle built from a size with its top bit set has all of bits 63..32
set, whatever the address. -/
theorem sb_wasm_addr_encode_large (addr size : Nat) (ha : addr < 2 ^ 32)
    (hs : 2 ^ 31 ≤ size) (hs2 : size < 2 ^ 32) :
    sb_wasm_addr_encode addr size = 2 ^ 32 * (2 ^ 32 - 1) + size := by
  unfold sb_wasm_addr_encode shl64
  rw [sext32to64_of_ge hs hs2, Nat.shiftLeft_eq]
  have hsh : sext32to64 addr * 2 ^ 32 % 2 ^ 64 = 2 ^ 32 * addr := by
    unfold sext32to64
    rw [Nat.mod_eq_of_lt ha]
    split <;> omega
  rw [hsh]
  have e1 : size + (2 ^ 64 - 2 ^ 32) = 2 ^ 32 * (2 ^ 32 - 1) + size := by omega
  rw [e1, Nat.mul_add_lt_is_or hs2 (2 ^ 32 - 1)]
  rw [← Nat.lor_assoc]
  congr 1
  have e2 : (2 : Nat) ^ 32 * addr = addr <<< 32 := by rw [Nat.shiftLeft_eq]; ring
  have e3 : (2 : Nat) ^ 32 * (2 ^ 32 - 1) = (2 ^ 32 - 1) <<< 32 := by
    rw [Nat.shiftLeft_eq]; ring
  rw [e2, e3]
  apply Nat.eq_of_testBit_eq
  intro i
  rw [Nat.testBit_or, Nat.testBit_shiftLeft, Nat.testBit_shiftLeft,
    Nat.testBit_two_pow_sub_one]
  by_cases hi : 32 ≤ i
  · by_cases hj : i - 32 < 32
    · simp [hi, hj]
    · have : addr < 2 ^ (i - 32) :=
        lt_of_lt_of_le ha (Nat.pow_le_pow_right (by norm_num) (by omega))
      simp [hi, hj, Nat.testBit_lt_two_pow this]
  · simp [hi]

/-- Round trip of the codec for every address and every size below `2 ^ 31`. -/
theorem sb_wasm_addr_roundtrip_small (addr size : Nat) (ha : addr < 2 ^ 32)
    (hs : size < 2 ^ 31) :
    sb_wasm_addr_decode (sb_wasm_addr_encode addr size) = (addr, size) := by
  have hlt : 2 ^ 32 * addr + size < 2 ^ 64 := by omega
  rw [sb_wasm_addr_encode_small addr size ha hs, sb_wasm_addr_decode_eq _ hlt]
  refine Prod.ext ?_ ?_
  · show (2 ^ 32 * addr + size) / 2 ^ 32 % 2 ^ 32 = addr
    omega
  · show (2 ^ 32 * addr + size) % 2 ^ 32 = size
    omega

/-- With the top bit of `size` set, the decoded address is `0xffffffff` for every
address that was encoded. -/
theorem sb_wasm_addr_roundtrip_large (addr size : Nat) (ha : addr < 2 ^ 32)
    (hs : 2 ^ 31 ≤ size) (hs2 : size < 2 ^ 32) :
    sb_wasm_addr_decode (sb_wasm_addr_encode addr size) = (2 ^ 32 - 1, size) := by
  have hlt : 2 ^ 32 * (2 ^ 32 - 1) + size < 2 ^ 64 := by omega
  rw [sb_wasm_addr_encode_large addr size ha hs hs2, sb_wasm_addr_decode_eq _ hlt]
  refine Prod.ext ?_ ?_
  · show (2 ^ 32 * (2 ^ 32 - 1) + size) / 2 ^ 32 % 2 ^ 32 = 2 ^ 32 - 1
    omega
  · show (2 ^ 32 * (2 ^ 32 - 1) + size) % 2 ^ 32 = size
    omega

/-- C1, at the input `addr = 1`, `size = 0x80000000`: the handle is
`0xffffffff80000000` and decoding it gives the address `0xffffffff`, not `1`; the
round trip of the address codec fails there. -/
theorem C1_roundtrip_fails_top_bit_size :
    sb_wasm_addr_encode 1 0x80000000 = 0xffffffff80000000 ∧
    sb_wasm_addr_decode (sb_wasm_addr_encode 1 0x80000000) = (0xffffffff, 0x80000000) ∧
    sb_wasm_addr_decode (sb_wasm_addr_encode 1 0x80000000) ≠ (1, 0x80000000) := by
  refine ⟨by decide, by decide, by decide⟩

theorem char_eq_of_toNat_eq {x y : Char} (h : x.toNat = y.toNat) : x = y := by
  have h2 := congrArg Char.ofNat h
  rwa [Char.ofNat_toNat, Char.ofNat_toNat] at h2

/-- On C strings `strcmp` returns `0` exactly for equal strings. -/
theorem strcmp_eq_zero_iff (a b : List Char) (ha : ∀ c ∈ a, c.toNat ≠ 0)
    (hb : ∀ c ∈ b, c.toNat ≠ 0) : strcmp a b = 0 ↔ a = b := by
  induction a generalizing b with
  | nil =>
    cases b with
    | nil => simp [strcmp]
    | cons y ys =>
      have hy : y.toNat ≠ 0 := hb y (List.mem_cons_self y ys)
      simp only [strcmp]
      constructor
      · intro h; omega
      · intro h; cases h
  | cons x xs ih =>
    have hx : x.toNat ≠ 0 := ha x (List.mem_cons_self x xs)
    cases b with
    | nil =>
      simp only [strcmp]
      constructor
      · intro h; omega
      · intro h; cases h
    | cons y ys =>
      simp only [strcmp]
      split
      · rename_i hxy
        subst hxy
        rw [ih ys (fun c hc => ha c (List.mem_cons_of_mem _ hc))
          (fun c hc => hb c (List.mem_cons_of_mem _ hc))]
        simp
      · rename_i hxy
        have hne : x.toNat ≠ y.toNat := fun h => hxy (char_eq_of_toNat_eq h)
        constructor
        · intro h; omega
        · intro h
          injection h with h1 _
          exact absurd h1 hxy

theorem strcmp_data_eq_zero_iff (a b : String) (ha : IsCString a) (hb : IsCString b) :
    strcmp a.data b.data = 0 ↔ a = b := by
  rw [strcmp_eq_zero_iff a.data b.data ha hb]
  constructor
  · intro h; exact String.ext h
  · intro h; rw [h]

/-- The name mapping, as a lemma shared by the theorems below. -/
theorem runtime_name_to_type_iff (runtime : String) (h : IsCString runtime) :
    (sb_wasm_runtime_name_to_type runtime = SB_WASM_RUNTIME_WAMR ↔ runtime = "wamr") ∧
    (sb_wasm_runtime_name_to_type runtime = SB_WASM_RUNTIME_WASMEDGE ↔ runtime = "wasmedge") ∧
    (sb_wasm_runtime_name_to_type runtime = SB_WASM_RUNTIME_WASMER ↔ runtime = "wasmer") ∧
    (sb_wasm_runtime_name_to_type runtime = SB_WASM_RUNTIME_WASMTIME ↔ runtime = "wasmtime") ∧
    (sb_wasm_runtime_name_to_type runtime = SB_WASM_RUNTIME_UNKNOWN ↔
      (runtime ≠ "wamr" ∧ runtime ≠ "wasmedge" ∧ runtime ≠ "wasmer" ∧
        runtime ≠ "wasmtime")) := by
  have h1 := strcmp_data_eq_zero_iff runtime "wamr" h (by decide)
  have h2 := strcmp_data_eq_zero_iff runtime "wasmedge" h (by decide)
  have h3 := strcmp_data_eq_zero_iff runtime "wasmer" h (by decide)
  have h4 := strcmp_data_eq_zero_iff runtime "wasmtime" h (by decide)
  unfold sb_wasm_runtime_name_to_type
  simp only [h1, h2, h3, h4]
  by_cases e1 : runtime = "wamr"
  · subst e1; simp
  by_cases e2 : runtime = "wasmedge"
  · subst e2; simp
  by_cases e3 : runtime = "wasmer"
  · subst e3; simp
  by_cases e4 : runtime = "wasmtime"
  · subst e4; simp
  simp [e1, e2, e3, e4]

/-- C2: on a C string, `sb_wasm_runtime_name_to_type` returns each engine tag for
exactly its own name ("wamr", "wasmedge", "wasmer", "wasmtime") and
`SB_WASM_RUNTIME_UNKNOWN` for exactly the strings that are none of the four. -/
theorem C2_runtime_name_mapping (runtime : String) (h : IsCString runtime) :
    (sb_wasm_runtime_name_to_type runtime = SB_WASM_RUNTIME_WAMR ↔ runtime = "wamr") ∧
    (sb_wasm_runtime_name_to_type runtime = SB_WASM_RUNTIME_WASMEDGE ↔ runtime = "wasmedge") ∧
    (sb_wasm_runtime_name_to_type runtime = SB_WASM_RUNTIME_WASMER ↔ runtime = "wasmer") ∧
    (sb_wasm_runtime_name_to_type runtime = SB_WASM_RUNTIME_WASMTIME ↔ runtime = "wasmtime") ∧
    (sb_wasm_runtime_name_to_type runtime = SB_WASM_RUNTIME_UNKNOWN ↔
      (runtime ≠ "wamr" ∧ runtime ≠ "wasmedge" ∧ runtime ≠ "wasmer" ∧
        runtime ≠ "wasmtime")) :=
  runtime_name_to_type_iff runtime h

/-- C2 at "bogus", "", "WAMR" and "wamr " (none of the four names, mapped to
`SB_WASM_RUNTIME_UNKNOWN`) and at "wasmtime". -/
theorem C2_runtime_name_mapping_witness :
    IsCString "bogus" ∧
    sb_wasm_runtime_name_to_type "bogus" = SB_WASM_RUNTIME_UNKNOWN ∧
    sb_wasm_runtime_name_to_type "" = SB_WASM_RUNTIME_UNKNOWN ∧
    sb_wasm_runtime_name_to_type "WAMR" = SB_WASM_RUNTIME_UNKNOWN ∧
    sb_wasm_runtime_name_to_type "wamr " = SB_WASM_RUNTIME_UNKNOWN ∧
    sb_wasm_runtime_name_to_type "wasmtime" = SB_WASM_RUNTIME_WASMTIME :=
  ⟨by decide,
    (C2_runtime_name_mapping "bogus" (by decide)).2.2.2.2.mpr (by decide),
    (C2_runtime_name_mapping "" (by decide)).2.2.2.2.mpr (by decide),
    (C2_runtime_name_mapping "WAMR" (by decide)).2.2.2.2.mpr (by decide),
    (C2_runtime_name_mapping "wamr " (by decide)).2.2.2.2.mpr (by decide),
    (C2_runtime_name_mapping "wasmtime" (by decide)).2.2.2.1.mpr rfl⟩

/-- C3: with a C string that is none of the four engine names, or one whose
engine is not compiled in, `sb_load_wasm` returns `NULL` for every test name
(`NULL` or not); it logs the fatal "unsupported wasm runtime" entry after the
debug entry and changes nothing else. -/
theorem C3_unknown_engine_rejected {W : Type} (h : Host W) (st : State W)
    (testname : Option String) (runtime : String) (hc : IsCString runtime)
    (hu : (runtime ≠ "wamr" ∧ runtime ≠ "wasmedge" ∧ runtime ≠ "wasmer" ∧
            runtime ≠ "wasmtime") ∨
          h.compiled (sb_wasm_runtime_name_to_type runtime) = false) :
    (sb_load_wasm h st testname runtime).1 = none ∧
    (sb_load_wasm h st testname runtime).2 =
      { st with log := st.log ++
          [⟨LOG_DEBUG, "load wasm using runtime: %s", [LogArg.str (some runtime)]⟩,
           ⟨LOG_FATAL, "unsupported wasm runtime: %s", [LogArg.str (some runtime)]⟩] } := by
  have hcomp : h.compiled (sb_wasm_runtime_name_to_type runtime) = false := by
    rcases hu with hn | hn
    · rw [((runtime_name_to_type_iff runtime hc).2.2.2.2).mpr hn]
      rfl
    · exact hn
  unfold sb_load_wasm
  cases ht : sb_wasm_runtime_name_to_type runtime <;>
    simp [ht, Host.compiled] at hcomp <;>
    simp [hcomp, log_text]

/-- C3 at the runtime name "bogus" with a test name, and at "wasmer" (recognised,
not compiled into the example build) without one. -/
theorem C3_unknown_engine_rejected_witness :
    (sb_load_wasm exampleHost (initialState 0) (some "t.wasm") "bogus").1 = none ∧
    (sb_load_wasm exampleHost (initialState 0) none "wasmer").1 = none :=
  ⟨(C3_unknown_engine_rejected exampleHost (initialState 0) (some "t.wasm") "bogus"
      (by decide) (Or.inl (by decide))).1,
   (C3_unknown_engine_rejected exampleHost (initialState 0) none "wasmer"
      (by decide) (Or.inr (by decide))).1⟩

theorem xfree_fst (ptr : Option String) (freed : List Freed) : (xfree ptr freed).1 = none := by
  cases ptr <;> rfl

theorem free_args_entries_isSome (arr : List sb_arg_t) (freed : List Freed)
    (hterm : arr.any (fun a => a.name.isNone) = true) :
    ∃ arr1 freed1, free_args_entries arr freed = some (arr1, freed1) := by
  induction arr generalizing freed with
  | nil => simp at hterm
  | cons a rest ih =>
    cases hn : a.name with
    | none => exact ⟨a :: rest, freed, by simp [free_args_entries, hn]⟩
    | some n =>
      have hrest : rest.any (fun a => a.name.isNone) = true := by
        simpa [List.any_cons, hn] using hterm
      obtain ⟨arr1, freed1, h1⟩ :=
        ih (xfree a.value (xfree a.desc (xfree (some n) freed).2).2).2 hrest
      simp only [free_args_entries, hn, h1]
      exact ⟨_, _, rfl⟩

/-- Teardown of a descriptor with a terminated schema succeeds and leaves the
schema and both names `NULL`; the operation table is not touched. -/
theorem free_descriptor_terminated (t : sb_test_t) (freed : List Freed)
    (hterm : args_terminated t = true) :
    ∃ t1 freed1, free_descriptor t freed = some (t1, freed1) ∧
      t1.args = none ∧ t1.sname = none ∧ t1.lname = none ∧ t1.ops = t.ops := by
  unfold free_descriptor
  cases ha : t.args with
  | none =>
    exact ⟨_, _, rfl, rfl, xfree_fst _ _, xfree_fst _ _, rfl⟩
  | some arr =>
    have hany : arr.any (fun a => a.name.isNone) = true := by
      simpa [args_terminated, ha] using hterm
    obtain ⟨arr1, freed1, h1⟩ := free_args_entries_isSome arr freed hany
    simp only [h1]
    exact ⟨_, _, rfl, rfl, xfree_fst _ _, xfree_fst _ _, rfl⟩

/-- Teardown of a descriptor whose schema and names are already `NULL` calls
`free` on nothing and leaves the descriptor as it is. -/
theorem free_descriptor_empty (t : sb_test_t) (freed : List Freed)
    (h1 : t.args = none) (h2 : t.sname = none) (h3 : t.lname = none) :
    free_descriptor t freed = some (t, freed) := by
  cases t with
  | mk sname lname args ops =>
    simp only at h1 h2 h3
    subst h1 h2 h3
    rfl

theorem sb_load_wasm_null_testname {W : Type} (h : Host W) (st : State W)
    (runtime : String) : (sb_load_wasm h st none runtime).1 = none := by
  unfold sb_load_wasm
  cases sb_wasm_runtime_name_to_type runtime <;> simp only [] <;>
    split <;> simp [sb_load_wasm_names]

theorem sb_load_wasm_some_testname {W : Type} (h : Host W) (st : State W)
    (name runtime : String) :
    (sb_load_wasm h st (some name) runtime).1 = none ↔
      h.compiled (sb_wasm_runtime_name_to_type runtime) = false := by
  unfold sb_load_wasm
  cases sb_wasm_runtime_name_to_type runtime <;> simp only [Host.compiled] <;>
    split <;> simp_all [sb_load_wasm_names]

/-- C4, as stated, fails for the empty string: with the engine "wamr" compiled
in, `sb_load_wasm` of `sb_wasm.c` given the path "" returns the descriptor, and
so does `sb_load_wasm` of `sb_wasmedge.c` with one thread. -/
theorem C4_empty_path_accepted :
    (sb_load_wasm exampleHost (initialState 0) (some "") "wamr").1 ≠ none ∧
    (WasmEdge.sb_load_wasm (WasmEdge.exampleHost 1)
        (WasmEdge.exampleState exampleDescriptor) (some "") 0 []).map (fun r => r.1.isSome)
      = some true := by
  constructor
  · decide
  · decide

/-- C4, amended: a `NULL` module path is rejected by both loaders, for every
runtime name (the WasmEdge loader given a terminated argument schema); a path
that is a string, the empty one included, is rejected by the generic loader
exactly when the named engine is not compiled into the binary. -/
theorem C4_null_path_rejected {W : Type} (h : Host W) (st : State W) (runtime : String)
    (wh : WasmEdge.Host) (wst : WasmEdge.State) (argc : Int) (argv : List String) :
    (sb_load_wasm h st none runtime).1 = none ∧
    ((sb_load_wasm h st (some "") runtime).1 = none ↔
      h.compiled (sb_wasm_runtime_name_to_type runtime) = false) ∧
    (args_terminated wst.sbtest = true →
      ∃ wst1, WasmEdge.sb_load_wasm wh wst none argc argv = some (none, wst1)) := by
  refine ⟨sb_load_wasm_null_testname h st runtime,
    sb_load_wasm_some_testname h st "" runtime, ?_⟩
  intro hterm
  have hterm1 : args_terminated (WasmEdge.log_text wst LOG_FATAL "no wasm name provided"
      []).sbtest = true := hterm
  obtain ⟨t1, freed1, hf, -⟩ := free_descriptor_terminated _
    (match wst.contexts with
      | some c => wst.freed ++ [Freed.contexts c.length]
      | none => wst.freed) hterm1
  simp only [WasmEdge.sb_load_wasm, WasmEdge.sb_wasm_done]
  simp only [WasmEdge.log_text] at hf ⊢
  rw [hf]
  exact ⟨_, rfl⟩

/-- C4, amended, at the example build: `NULL` is rejected under the runtime name
"wamr", and by the WasmEdge loader holding the example descriptor. -/
theorem C4_null_path_rejected_witness :
    args_terminated (WasmEdge.exampleState exampleDescriptor).sbtest = true ∧
    (sb_load_wasm exampleHost (initialState 0) none "wamr").1 = none ∧
    (∃ wst1, WasmEdge.sb_load_wasm (WasmEdge.exampleHost 1)
      (WasmEdge.exampleState exampleDescriptor) none 0 [] = some (none, wst1)) :=
  ⟨by decide,
   (C4_null_path_rejected exampleHost (initialState 0) "wamr" (WasmEdge.exampleHost 1)
      (WasmEdge.exampleState exampleDescriptor) 0 []).1,
   (C4_null_path_rejected exampleHost (initialState 0) "wamr" (WasmEdge.exampleHost 1)
      (WasmEdge.exampleState exampleDescriptor) 0 []).2.2 (by decide)⟩

/-- C5: `sb_wasm_op_execute_event` with `r == NULL` returns `FAILURE` and leaves
the state, the trace of adapter calls included, as it was; with an event and a
sandbox in slot `thread_id` it makes exactly one adapter call, `function_apply`
of that sandbox with the sandbox's context, the name "event", `thread_id` and
the event's payload, returns the status of that call and leaves in the payload
what the call left there. -/
theorem C5_execute_event {W : Type} (h : Host W) (st : State W) (ev : sb_event_t)
    (thread_id : Int) :
    sb_wasm_op_execute_event h st none thread_id = some (h.FAILURE, none, st) ∧
    (∀ sandbox : sb_wasm_sandbox W,
      readSlot st.sandboxs thread_id = some (some sandbox) →
      sb_wasm_op_execute_event h st (some ev) thread_id =
        some ((sandbox.function_apply st.world sandbox.context "event" thread_id
                ev.wasm_request).1.1,
              some { ev with wasm_request :=
                (sandbox.function_apply st.world sandbox.context "event" thread_id
                  ev.wasm_request).1.2 },
              { st with
                world := (sandbox.function_apply st.world sandbox.context "event" thread_id
                  ev.wasm_request).2
                calls := st.calls ++ [AdapterCall.function_apply sandbox.context "event"
                  thread_id ev.wasm_request] })) := by
  constructor
  · rfl
  · intro sandbox hslot
    simp only [sb_wasm_op_execute_event, hslot]

/-- C5 at a table whose slot 1 holds the example sandbox: the event is executed
by that sandbox and the status `0` of the guest call is returned. -/
theorem C5_execute_event_witness :
    readSlot ({ readyState 5 true true with
        sandboxs := some [none, some (exampleSandbox true)] }).sandboxs 1
      = some (some (exampleSandbox true)) ∧
    (sb_wasm_op_execute_event exampleHost
        { readyState 5 true true with sandboxs := some [none, some (exampleSandbox true)] }
        (some ⟨9, 1⟩) 1).map (fun r => r.1) = some 0 := by
  have h := (C5_execute_event exampleHost
    { readyState 5 true true with sandboxs := some [none, some (exampleSandbox true)] }
    ⟨9, 1⟩ 1).2 (exampleSandbox true) (by rfl)
  exact ⟨by rfl, by rw [h]; rfl⟩

/-- The result of `readSlot` after a write to the same table. -/
theorem readSlot_writeSlot {α : Type} (table : Option (List α)) (i : Int) (v : α)
    (t1 : List α) (hw : writeSlot table i v = some t1) (j : Int) :
    readSlot (some t1) j = if j = i then some v else readSlot table j := by
  cases table with
  | none => simp [writeSlot] at hw
  | some t =>
    simp only [writeSlot] at hw
    split at hw
    · rename_i hi
      injection hw with hw
      subst hw
      simp only [readSlot, List.length_set]
      by_cases hji : j = i
      · subst hji
        simp [hi, List.getElem?_set]
      · simp only [hji, if_false]
        by_cases hj : 0 ≤ j ∧ j.toNat < t.length
        · have hne : i.toNat ≠ j.toNat := by
            intro he
            apply hji
            have h1 := Int.toNat_of_nonneg hi.1
            have h2 := Int.toNat_of_nonneg hj.1
            omega
          simp [hj, List.getElem?_set, hne]
        · simp [hj]
    · simp at hw

theorem writeSlot_index {α : Type} (table : Option (List α)) (i : Int) (v : α)
    (t1 : List α) (hw : writeSlot table i v = some t1) :
    0 ≤ i ∧ i.toNat < t1.length := by
  cases table with
  | none => simp [writeSlot] at hw
  | some t =>
    simp only [writeSlot] at hw
    split at hw
    · rename_i hi
      injection hw with hw
      subst hw
      simpa using hi
    · simp at hw

/-- The run of `sb_wasm_op_thread_init` in which the sandbox is created, reports
`create_buffer` and the guest call returns `SUCCESS` leaving `handle`. -/
theorem thread_init_buffer_created {W : Type} (h : Host W) (st : State W) (thread_id : Int)
    (rt : sb_wasm_runtime W) (sandbox : sb_wasm_sandbox W)
    (table : List (Option (sb_wasm_sandbox W))) (m : sb_wasm_module) (w1 w2 w3 : W)
    (handle : Nat)
    (hrt : st.wasm_runtime = some rt)
    (hc : rt.create_sandbox st.world st.wasm_module thread_id = (some sandbox, w1))
    (htable : writeSlot st.sandboxs thread_id (some sandbox) = some table)
    (ha : sandbox.function_available w1 sandbox.context "create_buffer" = (true, w2))
    (hm : st.wasm_module = some m)
    (hf : sandbox.function_apply w2 sandbox.context "create_buffer" thread_id m.buffer_size
            = ((h.SUCCESS, handle), w3)) :
    ∃ st1, sb_wasm_op_thread_init h st thread_id = some (h.SUCCESS, st1) ∧
      readSlot st1.sandboxs thread_id =
        some (some { sandbox with buffer_addr := (sb_wasm_addr_decode handle).1 }) ∧
      st1.log = st.log ++ [⟨LOG_INFO, "create a buffer(%d) for sandbox %d at %p",
        [LogArg.int (int32_value (sb_wasm_addr_decode handle).2), LogArg.int thread_id,
          LogArg.nat (sb_wasm_addr_decode handle).1]⟩] := by
  have hidx := writeSlot_index _ _ _ _ htable
  unfold sb_wasm_op_thread_init
  simp only [hrt, hc, htable, ha, hf, if_true, ne_eq, not_true_eq_false, if_false, log_text]
  simp only [hm, hf, if_true, ne_eq, not_true_eq_false, if_false]
  refine ⟨_, rfl, ?_, rfl⟩
  simp [readSlot, hidx, List.getElem?_set]

/-- C6, as stated, fails for the size: in the example engine the guest call
leaves the engine state `handle` in the in/out value and thread init returns
`SUCCESS`, yet no read-out of the sandbox left in slot 0 gives the decoded
size of every handle (the handles `0x500000010` and `0x500000020` leave the
same sandbox). -/
theorem C6_size_not_recorded :
    ¬ ∃ size_of : sb_wasm_sandbox Nat → Nat,
      ∀ (handle : Nat) (st1 : State Nat) (sb : sb_wasm_sandbox Nat),
        sb_wasm_op_thread_init exampleHost (readyState handle true true) 0
            = some (exampleHost.SUCCESS, st1) →
        readSlot st1.sandboxs 0 = some (some sb) →
        (sb.buffer_addr, size_of sb) = sb_wasm_addr_decode handle := by
  rintro ⟨size_of, hsz⟩
  have h1 := hsz 0x500000010 _ { exampleSandbox true with buffer_addr := 5 } rfl rfl
  have h2 := hsz 0x500000020 _ { exampleSandbox true with buffer_addr := 5 } rfl rfl
  have d1 : sb_wasm_addr_decode 0x500000010 = (5, 0x10) := by decide
  have d2 : sb_wasm_addr_decode 0x500000020 = (5, 0x20) := by decide
  rw [d1] at h1
  rw [d2] at h2
  have e1 := congrArg Prod.snd h1
  have e2 := congrArg Prod.snd h2
  simp only at e1 e2
  omega

/-- C6, amended: when the created sandbox reports `create_buffer` and the guest
call returns `SUCCESS`, `sb_wasm_op_thread_init` returns `SUCCESS`, the sandbox
in slot `thread_id` is the created one with its buffer address set to the
address decoded from the handle the call left, and the decoded size goes to
the log entry only. -/
theorem C6_buffer_addr_recorded {W : Type} (h : Host W) (st : State W) (thread_id : Int)
    (rt : sb_wasm_runtime W) (sandbox : sb_wasm_sandbox W)
    (table : List (Option (sb_wasm_sandbox W))) (m : sb_wasm_module) (w1 w2 w3 : W)
    (handle : Nat)
    (hrt : st.wasm_runtime = some rt)
    (hc : rt.create_sandbox st.world st.wasm_module thread_id = (some sandbox, w1))
    (htable : writeSlot st.sandboxs thread_id (some sandbox) = some table)
    (ha : sandbox.function_available w1 sandbox.context "create_buffer" = (true, w2))
    (hm : st.wasm_module = some m)
    (hf : sandbox.function_apply w2 sandbox.context "create_buffer" thread_id m.buffer_size
            = ((h.SUCCESS, handle), w3)) :
    ∃ st1, sb_wasm_op_thread_init h st thread_id = some (h.SUCCESS, st1) ∧
      readSlot st1.sandboxs thread_id =
        some (some { sandbox with buffer_addr := (sb_wasm_addr_decode handle).1 }) ∧
      st1.log = st.log ++ [⟨LOG_INFO, "create a buffer(%d) for sandbox %d at %p",
        [LogArg.int (int32_value (sb_wasm_addr_decode handle).2), LogArg.int thread_id,
          LogArg.nat (sb_wasm_addr_decode handle).1]⟩] :=
  thread_init_buffer_created h st thread_id rt sandbox table m w1 w2 w3 handle hrt hc htable
    ha hm hf

/-- C6, amended, for thread 1 of the example engine with the handle
`0x500000010`: the recorded address is 5. -/
theorem C6_buffer_addr_recorded_witness :
    ∃ st1, sb_wasm_op_thread_init exampleHost (readyState 0x500000010 true true) 1
        = some (0, st1) ∧
      (readSlot st1.sandboxs 1).map (fun o => o.map (fun sb => sb.buffer_addr))
        = some (some 5) := by
  obtain ⟨st1, h1, h2, -⟩ := C6_buffer_addr_recorded exampleHost
    (readyState 0x500000010 true true) 1 (exampleRuntime true true) (exampleSandbox true)
    [none, some (exampleSandbox true)]
    { file_buffer := [], file_size := 0, heap_size := 64, stack_size := 64,
      max_thread_num := 64, buffer_size := 64 }
    0x500000010 0x500000010 0x500000010 0x500000010 rfl rfl rfl rfl rfl rfl
  refine ⟨st1, h1, ?_⟩
  rw [h2]
  decide

/-- C7: when the created sandbox reports `create_buffer` as not available,
`sb_wasm_op_thread_init` returns `SUCCESS`; the adapter calls it made are
`create_sandbox` and `function_available`, no `function_apply`; slot
`thread_id` holds the sandbox exactly as `create_sandbox` returned it, buffer
address included, and the other slots are as before. -/
theorem C7_buffer_creation_absent {W : Type} (h : Host W) (st : State W) (thread_id : Int)
    (rt : sb_wasm_runtime W) (sandbox : sb_wasm_sandbox W)
    (table : List (Option (sb_wasm_sandbox W))) (w1 w2 : W)
    (hrt : st.wasm_runtime = some rt)
    (hc : rt.create_sandbox st.world st.wasm_module thread_id = (some sandbox, w1))
    (htable : writeSlot st.sandboxs thread_id (some sandbox) = some table)
    (ha : sandbox.function_available w1 sandbox.context "create_buffer" = (false, w2)) :
    ∃ st1, sb_wasm_op_thread_init h st thread_id = some (h.SUCCESS, st1) ∧
      st1.calls = st.calls ++ [AdapterCall.create_sandbox thread_id,
        AdapterCall.function_available sandbox.context "create_buffer"] ∧
      readSlot st1.sandboxs thread_id = some (some sandbox) ∧
      (∀ j, j ≠ thread_id → readSlot st1.sandboxs j = readSlot st.sandboxs j) ∧
      st1.log = st.log ++
        [⟨LOG_WARNING, "'create_buffer' function not found in wasm module", []⟩] := by
  simp only [sb_wasm_op_thread_init, hrt, hc, htable, ha, log_text]
  refine ⟨_, rfl, by simp, ?_, ?_, rfl⟩
  · simp [readSlot_writeSlot _ _ _ _ htable]
  · intro j hj
    simp [readSlot_writeSlot _ _ _ _ htable, hj]

/-- C7 for thread 0 of the example engine without `create_buffer`: status
`SUCCESS`, two adapter calls, the sandbox in slot 0 with buffer address 0. -/
theorem C7_buffer_creation_absent_witness :
    ∃ st1, sb_wasm_op_thread_init exampleHost (readyState 3 false true) 0 = some (0, st1) ∧
      st1.calls = [AdapterCall.create_sandbox 0,
        AdapterCall.function_available 7 "create_buffer"] ∧
      (readSlot st1.sandboxs 0).map (fun o => o.map (fun sb => sb.buffer_addr))
        = some (some 0) := by
  obtain ⟨st1, h1, h2, h3, -⟩ := C7_buffer_creation_absent exampleHost
    (readyState 3 false true) 0 (exampleRuntime false true) (exampleSandbox false)
    [some (exampleSandbox false), none] 3 3 rfl rfl rfl rfl
  refine ⟨st1, h1, h2, ?_⟩
  rw [h3]
  rfl

theorem writeSlot_again {α : Type} (table : Option (List α)) (i : Int) (v v1 : α)
    (t1 : List α) (hw : writeSlot table i v = some t1) :
    writeSlot (some t1) i v1 = some (t1.set i.toNat v1) := by
  have hidx := writeSlot_index table i v t1 hw
  simp [writeSlot, hidx]

/-- What `sb_wasm_op_thread_init` does to the sandbox table: nothing when
`create_sandbox` fails; otherwise slot `thread_id` holds a sandbox and every
other slot reads as before. -/
theorem thread_init_table {W : Type} (h : Host W) (st st1 : State W) (thread_id : Int)
    (r : Int) (hstep : sb_wasm_op_thread_init h st thread_id = some (r, st1)) :
    ∃ rt, st.wasm_runtime = some rt ∧
      (((rt.create_sandbox st.world st.wasm_module thread_id).1 = none ∧
          st1.sandboxs = st.sandboxs) ∨
        (∃ sb sb1, (rt.create_sandbox st.world st.wasm_module thread_id).1 = some sb ∧
          ∀ j, readSlot st1.sandboxs j =
            if j = thread_id then some (some sb1) else readSlot st.sandboxs j)) := by
  unfold sb_wasm_op_thread_init at hstep
  cases hrt : st.wasm_runtime with
  | none => simp [hrt] at hstep
  | some rt =>
    refine ⟨rt, rfl, ?_⟩
    simp only [hrt] at hstep
    cases hc : (rt.create_sandbox st.world st.wasm_module thread_id).1 with
    | none =>
      left
      simp only [hc, log_text] at hstep
      injection hstep with hstep
      injection hstep with _ hst
      subst hst
      exact ⟨rfl, rfl⟩
    | some sb =>
      right
      simp only [hc] at hstep
      cases hw : writeSlot st.sandboxs thread_id (some sb) with
      | none => simp [hw] at hstep
      | some table =>
        simp only [hw] at hstep
        have key : ∀ v1 j, readSlot (some (table.set thread_id.toNat v1)) j =
            if j = thread_id then some v1 else readSlot st.sandboxs j := by
          intro v1 j
          rw [readSlot_writeSlot _ _ _ _ (writeSlot_again _ _ _ v1 _ hw) j,
            readSlot_writeSlot _ _ _ _ hw j]
          split <;> rfl
        split at hstep
        · cases hm : st.wasm_module with
          | none => simp [hm] at hstep
          | some m =>
            simp only [hm] at hstep
            split at hstep
            · injection hstep with hstep
              injection hstep with _ hst
              subst hst
              refine ⟨sb, sb, rfl, fun j => ?_⟩
              simp only [log_text]
              exact readSlot_writeSlot _ _ _ _ hw j
            · injection hstep with hstep
              injection hstep with _ hst
              subst hst
              exact ⟨sb, _, rfl, key _⟩
        · injection hstep with hstep
          injection hstep with _ hst
          subst hst
          refine ⟨sb, sb, rfl, fun j => ?_⟩
          simp only [log_text]
          exact readSlot_writeSlot _ _ _ _ hw j

theorem populated_of_sandboxs_eq {W : Type} (st st1 : State W) (i : Int)
    (he : st1.sandboxs = st.sandboxs) : populated st1 i = populated st i := by
  unfold populated
  rw [he]

theorem readSlot_replicate_none {α : Type} (n : Nat) (i : Int) :
    readSlot (some (List.replicate n (none : Option α))) i = some none ∨
    readSlot (some (List.replicate n (none : Option α))) i = none := by
  simp only [readSlot, List.length_replicate]
  by_cases hi : 0 ≤ i ∧ i.toNat < n
  · left
    simp [hi, List.getElem?_replicate]
  · right
    simp [hi]

theorem sb_load_wasm_sandboxs {W : Type} (h : Host W) (st : State W)
    (testname : Option String) (runtime : String) :
    (sb_load_wasm h st testname runtime).2.sandboxs = st.sandboxs := by
  unfold sb_load_wasm
  cases sb_wasm_runtime_name_to_type runtime <;> simp only [] <;>
    first
    | (split <;> cases testname <;> rfl)
    | rfl

/-- What `sb_wasm_op_init` leaves in `sandboxs`: on `SUCCESS` a table of
`sb_globals.threads` slots, all `NULL`; on any other status the old table or
`NULL`. -/
theorem op_init_table {W : Type} (h : Host W) (st st1 : State W) (r : Int)
    (hstep : sb_wasm_op_init h st = some (r, st1)) :
    (r = h.SUCCESS ∧ st1.sandboxs = some (List.replicate h.threads none)) ∨
    (r = h.FAILURE ∧ (st1.sandboxs = st.sandboxs ∨ st1.sandboxs = none)) := by
  unfold sb_wasm_op_init at hstep
  cases hrt : st.wasm_runtime with
  | none => simp [hrt] at hstep
  | some rt =>
    simp only [hrt] at hstep
    split at hstep
    · injection hstep with hstep
      injection hstep with hr hst
      subst hst
      exact Or.inr ⟨hr.symm, Or.inl rfl⟩
    · split at hstep
      · rename_i hl
        injection hstep with hstep
        injection hstep with hr hst
        subst hst
        refine Or.inr ⟨hr.symm, Or.inl ?_⟩
        simp only [log_text]
        cases hlm : rt.load_module with
        | none =>
          simp only [sb_wasm_load_module, log_text]
          split <;> rfl
        | some load => rfl
      · rename_i m hl
        split at hstep
        · injection hstep with hstep
          injection hstep with hr hst
          subst hst
          exact Or.inl ⟨hr.symm, rfl⟩
        · injection hstep with hstep
          injection hstep with hr hst
          subst hst
          exact Or.inr ⟨hr.symm, Or.inr rfl⟩

theorem thread_init_create_failed {W : Type} (h : Host W) (st st1 : State W)
    (thread_id r : Int) (rt : sb_wasm_runtime W) (hrt : st.wasm_runtime = some rt)
    (hc : (rt.create_sandbox st.world st.wasm_module thread_id).1 = none)
    (hstep : sb_wasm_op_thread_init h st thread_id = some (r, st1)) :
    r = h.FAILURE ∧ st1.sandboxs = st.sandboxs := by
  unfold sb_wasm_op_thread_init at hstep
  simp only [hrt, hc, log_text] at hstep
  injection hstep with hstep
  injection hstep with hr hst
  subst hst
  exact ⟨hr.symm, rfl⟩

/-- Only `sb_wasm_op_thread_init(i)` with a successful `create_sandbox` turns
slot `i` from unpopulated to populated. -/
theorem step_populates {W : Type} (h : Host W) (op : Op) (st st1 : State W) (i : Int)
    (hstep : step h op st = some st1) (h0 : populated st i = false)
    (h1 : populated st1 i = true) :
    op = Op.thread_init i ∧ ∃ rt sb, st.wasm_runtime = some rt ∧
      (rt.create_sandbox st.world st.wasm_module i).1 = some sb := by
  have same : st1.sandboxs = st.sandboxs → False := by
    intro he
    rw [populated_of_sandboxs_eq st st1 i he, h0] at h1
    exact Bool.false_ne_true h1
  cases op with
  | load_wasm testname runtime =>
    simp only [step, Option.some.injEq] at hstep
    subst hstep
    exact (same (sb_load_wasm_sandboxs h st testname runtime)).elim
  | wasm_done =>
    simp only [step, sb_wasm_done] at hstep
    split at hstep
    · simp at hstep
    · injection hstep with hstep
      subst hstep
      exact (same rfl).elim
  | next_event thread_id =>
    simp only [step, Option.map_eq_some'] at hstep
    obtain ⟨_, _, hst⟩ := hstep
    subst hst
    exact (same rfl).elim
  | execute_event r thread_id =>
    simp only [step, Option.map_eq_some'] at hstep
    obtain ⟨x, hx, hst⟩ := hstep
    subst hst
    unfold sb_wasm_op_execute_event at hx
    split at hx
    · split at hx
      · injection hx with hx
        subst hx
        exact (same rfl).elim
      · simp at hx
    · injection hx with hx
      subst hx
      exact (same rfl).elim
  | op_init =>
    simp only [step, Option.map_eq_some'] at hstep
    obtain ⟨x, hx, hst⟩ := hstep
    subst hst
    rcases op_init_table h st x.2 x.1 hx with ⟨-, ht⟩ | ⟨-, ht | ht⟩
    · exfalso
      unfold populated at h1
      rw [ht] at h1
      rcases readSlot_replicate_none (α := sb_wasm_sandbox W) h.threads i with hr | hr <;>
        simp [hr] at h1
    · exact (same ht).elim
    · exfalso
      unfold populated at h1
      rw [ht] at h1
      simp [readSlot] at h1
  | op_done =>
    simp only [step, sb_wasm_op_done, Option.some.injEq] at hstep
    subst hstep
    exact (same rfl).elim
  | thread_init thread_id =>
    simp only [step, Option.map_eq_some'] at hstep
    obtain ⟨x, hx, hst⟩ := hstep
    subst hst
    obtain ⟨rt, hrt, hcase⟩ := thread_init_table h st x.2 thread_id x.1 hx
    rcases hcase with ⟨-, ht⟩ | ⟨sb, sb1, hc, hread⟩
    · exact (same ht).elim
    · by_cases hi : i = thread_id
      · subst hi
        exact ⟨rfl, rt, sb, hrt, hc⟩
      · exfalso
        have hr := hread i
        simp only [hi, if_false] at hr
        unfold populated at h0 h1
        rw [hr] at h1
        rw [h1] at h0
        exact Bool.false_ne_true h0.symm

/-- C8: when `sb_wasm_op_init` returns `SUCCESS` the sandbox table has exactly
`sb_globals.threads` slots and every slot is `NULL`; afterwards a call of any
function of the file turns slot `i` from unpopulated to populated only if it is
`sb_wasm_op_thread_init(i)` and `create_sandbox` returned a sandbox; a failed
`create_sandbox` makes thread init return `FAILURE` with the table unchanged,
and thread init never changes another thread's slot. -/
theorem C8_sandbox_table_sizing {W : Type} (h : Host W) :
    (h.SUCCESS ≠ h.FAILURE →
      ∀ st st1 : State W, sb_wasm_op_init h st = some (h.SUCCESS, st1) →
      ∃ table, st1.sandboxs = some table ∧ table.length = h.threads ∧
        (∀ slot ∈ table, slot = none) ∧ ∀ i, populated st1 i = false) ∧
    (∀ (op : Op) (st st1 : State W) (i : Int), step h op st = some st1 →
      populated st i = false → populated st1 i = true →
      op = Op.thread_init i ∧ ∃ rt sb, st.wasm_runtime = some rt ∧
        (rt.create_sandbox st.world st.wasm_module i).1 = some sb) ∧
    (∀ (st st1 : State W) (thread_id r : Int) (rt : sb_wasm_runtime W),
      st.wasm_runtime = some rt →
      (rt.create_sandbox st.world st.wasm_module thread_id).1 = none →
      sb_wasm_op_thread_init h st thread_id = some (r, st1) →
      r = h.FAILURE ∧ st1.sandboxs = st.sandboxs) ∧
    (∀ (st st1 : State W) (thread_id r j : Int),
      sb_wasm_op_thread_init h st thread_id = some (r, st1) → j ≠ thread_id →
      readSlot st1.sandboxs j = readSlot st.sandboxs j) := by
  refine ⟨?_, ?_, ?_, ?_⟩
  · intro hne st st1 hinit
    rcases op_init_table h st st1 h.SUCCESS hinit with ⟨-, ht⟩ | ⟨hr, -⟩
    · refine ⟨_, ht, List.length_replicate _ _, ?_, ?_⟩
      · intro slot hs
        exact (List.mem_replicate.mp hs).2
      · intro i
        unfold populated
        rw [ht]
        rcases readSlot_replicate_none (α := sb_wasm_sandbox W) h.threads i with hr | hr <;>
          simp [hr]
    · exact absurd hr hne
  · intro op st st1 i hstep h0 h1
    exact step_populates h op st st1 i hstep h0 h1
  · intro st st1 thread_id r rt hrt hc hstep
    exact thread_init_create_failed h st st1 thread_id r rt hrt hc hstep
  · intro st st1 thread_id r j hstep hj
    obtain ⟨rt, -, hcase⟩ := thread_init_table h st st1 thread_id r hstep
    rcases hcase with ⟨-, ht⟩ | ⟨sb, sb1, -, hread⟩
    · rw [ht]
    · rw [hread j]
      simp [hj]

/-- C8 at the example build with two threads: init returns `SUCCESS` and leaves
a table of two slots, none of them populated. -/
theorem C8_sandbox_table_sizing_witness :
    exampleHost.SUCCESS ≠ exampleHost.FAILURE ∧
    ∃ st1, sb_wasm_op_init exampleHost (readyState 0 true true) = some (0, st1) ∧
      st1.sandboxs.map List.length = some 2 ∧
      populated st1 0 = false ∧ populated st1 1 = false := by
  have hne : exampleHost.SUCCESS ≠ exampleHost.FAILURE := by decide
  obtain ⟨table, ht, hlen, -, hpop⟩ :=
    (C8_sandbox_table_sizing exampleHost).1 hne (readyState 0 true true) _ rfl
  refine ⟨hne, _, rfl, ?_, hpop 0, hpop 1⟩
  rw [ht, Option.map_some', hlen]
  rfl

/-- C9: on a descriptor whose argument schema is absent or a terminated array
(entries may lack `desc` or `value`; the names may be absent), both
`sb_wasm_done` functions complete and leave the schema, the short name and the
long name `NULL` (the WasmEdge one also `contexts`); a second run returns the
very state the first run left, so it calls `free` on nothing. -/
theorem C9_teardown_idempotent {W : Type} (st : State W) (wst : WasmEdge.State) :
    (args_terminated st.sbtest = true →
      ∃ st1, sb_wasm_done st = some st1 ∧
      st1.sbtest.args = none ∧ st1.sbtest.sname = none ∧ st1.sbtest.lname = none ∧
      sb_wasm_done st1 = some st1) ∧
    (args_terminated wst.sbtest = true →
      ∃ wst1, WasmEdge.sb_wasm_done wst = some wst1 ∧
      wst1.sbtest.args = none ∧ wst1.sbtest.sname = none ∧ wst1.sbtest.lname = none ∧
      wst1.contexts = none ∧
      WasmEdge.sb_wasm_done wst1 = some wst1) := by
  constructor
  · intro hterm
    obtain ⟨t1, freed1, hf, ha, hs, hl, -⟩ := free_descriptor_terminated st.sbtest st.freed hterm
    refine ⟨{ st with sbtest := t1, freed := freed1 }, ?_, ha, hs, hl, ?_⟩
    · simp only [sb_wasm_done, hf]
    · simp only [sb_wasm_done, free_descriptor_empty t1 freed1 ha hs hl]
  · intro hwterm
    obtain ⟨t1, freed1, hf, ha, hs, hl, -⟩ := free_descriptor_terminated wst.sbtest
      (match wst.contexts with
        | some c => wst.freed ++ [Freed.contexts c.length]
        | none => wst.freed) hwterm
    refine ⟨{ wst with contexts := none, sbtest := t1, freed := freed1 }, ?_, ha, hs, hl,
      rfl, ?_⟩
    · simp only [WasmEdge.sb_wasm_done, hf]
    · simp only [WasmEdge.sb_wasm_done, free_descriptor_empty t1 freed1 ha hs hl]

/-- C9 at the example descriptor (two entries, one without `value`, one without
`desc`): the first run of the WasmEdge teardown releases the four strings of
the entries, the array and the two names; the second run releases nothing. -/
theorem C9_teardown_idempotent_witness :
    args_terminated (WasmEdge.exampleState exampleDescriptor).sbtest = true ∧
    (WasmEdge.sb_wasm_done (WasmEdge.exampleState exampleDescriptor)).map
        (fun s => (s.sbtest.args, s.sbtest.sname, s.sbtest.lname, s.freed.length))
      = some (none, none, none, 7) ∧
    ((WasmEdge.sb_wasm_done (WasmEdge.exampleState exampleDescriptor)).bind
        WasmEdge.sb_wasm_done).map (fun s => s.freed.length) = some 7 := by
  have hw := (C9_teardown_idempotent
    ({ initialState 0 with sbtest := exampleDescriptor })
    (WasmEdge.exampleState exampleDescriptor)).2 (by decide)
  obtain ⟨wst1, h1, -, -, -, -, h2⟩ := hw
  refine ⟨by decide, by decide, ?_⟩
  rw [h1, Option.some_bind, h2, ← h1]
  decide

theorem xfree_snd (ptr : Option String) (freed : List Freed) :
    (xfree ptr freed).2 = freed ++ string_allocation ptr := by
  cases ptr <;> simp [xfree, string_allocation]

/-- The loop over the schema calls `free` on exactly the strings of the entries
in front of the terminator, in order, and keeps the length of the array. -/
theorem free_args_entries_trace (arr : List sb_arg_t) (freed : List Freed)
    (arr1 : List sb_arg_t) (freed1 : List Freed)
    (hrun : free_args_entries arr freed = some (arr1, freed1)) :
    freed1 = freed ++ schema_allocations arr ∧ arr1.length = arr.length := by
  induction arr generalizing freed arr1 freed1 with
  | nil => simp [free_args_entries] at hrun
  | cons a rest ih =>
    cases hn : a.name with
    | none =>
      simp only [free_args_entries, hn, Option.some.injEq, Prod.mk.injEq] at hrun
      obtain ⟨h1, h2⟩ := hrun
      subst h1 h2
      simp [schema_allocations, hn]
    | some n =>
      simp only [free_args_entries, hn] at hrun
      split at hrun
      · simp at hrun
      · rename_i rest1 freed2 hrest
        simp only [Option.some.injEq, Prod.mk.injEq] at hrun
        obtain ⟨h1, h2⟩ := hrun
        subst h1 h2
        obtain ⟨ht, hl⟩ := ih _ _ _ hrest
        constructor
        · rw [ht, xfree_snd, xfree_snd, xfree_snd]
          simp [schema_allocations, hn, List.append_assoc]
        · simp [hl]

/-- Teardown of a descriptor calls `free` on exactly the allocations the
descriptor owns. -/
theorem free_descriptor_trace (t t1 : sb_test_t) (freed freed1 : List Freed)
    (hrun : free_descriptor t freed = some (t1, freed1)) :
    freed1 = freed ++ descriptor_allocations t := by
  unfold free_descriptor at hrun
  cases ha : t.args with
  | none =>
    simp only [ha, Option.some.injEq, Prod.mk.injEq] at hrun
    obtain ⟨-, h2⟩ := hrun
    rw [← h2, xfree_snd, xfree_snd]
    simp [descriptor_allocations, ha, List.append_assoc]
  | some arr =>
    simp only [ha] at hrun
    cases hl : free_args_entries arr freed with
    | none => simp [hl] at hrun
    | some r =>
      obtain ⟨arr1, freed2⟩ := r
      obtain ⟨ht, hlen⟩ := free_args_entries_trace arr freed arr1 freed2 hl
      simp only [hl, Option.some.injEq, Prod.mk.injEq] at hrun
      obtain ⟨-, h2⟩ := hrun
      rw [← h2, xfree_snd, xfree_snd, ht, hlen]
      simp [descriptor_allocations, ha, List.append_assoc]

/-- The teardown of `sb_wasmedge.c` on a terminated schema: it completes, leaves
`contexts`, the schema and both names `NULL`, and calls `free` on `contexts`
and on exactly the allocations the descriptor owns. -/
theorem wasmedge_done_releases (st : WasmEdge.State)
    (hterm : args_terminated st.sbtest = true) :
    ∃ st1, WasmEdge.sb_wasm_done st = some st1 ∧
      st1.sbtest.sname = none ∧ st1.sbtest.lname = none ∧ st1.sbtest.args = none ∧
      st1.contexts = none ∧ st1.log = st.log ∧
      st1.freed = st.freed ++ WasmEdge.contexts_allocation st.contexts ++
        descriptor_allocations st.sbtest := by
  have hc : (match st.contexts with
      | some c => st.freed ++ [Freed.contexts c.length]
      | none => st.freed) = st.freed ++ WasmEdge.contexts_allocation st.contexts := by
    cases st.contexts <;> simp [WasmEdge.contexts_allocation]
  obtain ⟨t1, freed1, hf, ha, hs, hl, -⟩ := free_descriptor_terminated st.sbtest
    (st.freed ++ WasmEdge.contexts_allocation st.contexts) hterm
  have htr := free_descriptor_trace _ _ _ _ hf
  refine ⟨{ st with contexts := none, sbtest := t1, freed := freed1 }, ?_, hs, hl, ha, rfl,
    rfl, htr⟩
  simp only [WasmEdge.sb_wasm_done, hc, hf]

/-- C10: the WasmEdge `sb_load_wasm`, on a descriptor with a terminated schema,
returns `NULL` for every thread count other than one, whatever the test name,
after a fatal log entry; on that failure `free` is called on `contexts` and on
exactly the allocations of the descriptor as it then is (the strings of the
schema entries, the schema array, the short and the long name, which are the
ones just set when a test name was given), and the short name, the long name
and the schema are left `NULL`.  With a test name, exactly one thread and a
successful `calloc` it returns the descriptor, which then holds the names, the
WasmEdge operation table and a context table of one empty slot; nothing is
released. -/
theorem C10_single_thread_engine (h : WasmEdge.Host) (st : WasmEdge.State)
    (testname : Option String) (name : String) (argc : Int) (argv : List String) :
    (h.threads ≠ 1 → args_terminated st.sbtest = true →
      ∃ st1, WasmEdge.sb_load_wasm h st testname argc argv = some (none, st1) ∧
        st1.sbtest.sname = none ∧ st1.sbtest.lname = none ∧ st1.sbtest.args = none ∧
        st1.freed = st.freed ++ WasmEdge.contexts_allocation st.contexts ++
          descriptor_allocations
            (match testname with
              | none => st.sbtest
              | some nm => { st.sbtest with sname := some (h.basename nm).1,
                                            lname := some (h.basename nm).2 }) ∧
        ∃ entry ∈ st1.log, entry.priority = LOG_FATAL) ∧
    (h.threads = 1 → h.calloc_ok 1 = true →
      ∃ st1, WasmEdge.sb_load_wasm h st (some name) argc argv = some (some st1.sbtest, st1) ∧
        st1.sbtest.sname = some (h.basename name).1 ∧
        st1.sbtest.lname = some (h.basename name).2 ∧
        st1.sbtest.args = st.sbtest.args ∧
        st1.sbtest.ops = sb_operations_t.wasmedge_ops ∧
        st1.contexts = some [none] ∧
        st1.freed = st.freed) := by
  constructor
  · intro hthreads hterm
    cases testname with
    | none =>
      obtain ⟨st1, hd, hs, hl, ha, -, hlog, hfr⟩ := wasmedge_done_releases
        (WasmEdge.log_text st LOG_FATAL "no wasm name provided" []) hterm
      refine ⟨st1, ?_, hs, hl, ha, hfr, ?_⟩
      · simp only [WasmEdge.sb_load_wasm, hd]
      · rw [hlog]
        exact ⟨_, List.mem_append_right _ (List.mem_singleton_self _), rfl⟩
    | some nm =>
      have hterm1 : args_terminated (WasmEdge.log_text
          { st with sbtest :=
              { st.sbtest with sname := some (h.basename nm).1,
                               lname := some (h.basename nm).2,
                               ops := sb_operations_t.wasmedge_ops } }
          LOG_FATAL "wasmedge script %s only support a single thread"
          [LogArg.str (some (h.basename nm).1)]).sbtest = true := hterm
      obtain ⟨st1, hd, hs, hl, ha, -, hlog, hfr⟩ := wasmedge_done_releases _ hterm1
      refine ⟨st1, ?_, hs, hl, ha, hfr, ?_⟩
      · simp only [WasmEdge.sb_load_wasm, hthreads, ne_eq, not_false_eq_true, if_true]
        rw [hd]
      · rw [hlog]
        exact ⟨_, List.mem_append_right _ (List.mem_singleton_self _), rfl⟩
  · intro hone hcalloc
    refine ⟨{ st with
        sbtest := { st.sbtest with sname := some (h.basename name).1,
                                   lname := some (h.basename name).2,
                                   ops := sb_operations_t.wasmedge_ops }
        contexts := some [none] }, ?_, rfl, rfl, rfl, rfl, rfl, rfl⟩
    simp only [WasmEdge.sb_load_wasm, hone, ne_eq, not_true_eq_false, if_false, hcalloc,
      if_true]
    rfl

/-- C10 at the example descriptor: four threads are rejected, the names are left
`NULL` and the four strings of the schema entries, the schema array and the two
names just set are released; one thread is accepted and nothing is released. -/
theorem C10_single_thread_engine_witness :
    args_terminated (WasmEdge.exampleState exampleDescriptor).sbtest = true ∧
    (∃ st1, WasmEdge.sb_load_wasm (WasmEdge.exampleHost 4)
        (WasmEdge.exampleState exampleDescriptor) (some "a.wasm") 0 [] = some (none, st1) ∧
      st1.sbtest.sname = none ∧
      st1.freed = [Freed.string "n", Freed.string "count", Freed.string "m",
        Freed.string "3", Freed.args_array 3, Freed.string "a.wasm",
        Freed.string "a.wasm"]) ∧
    (∃ st1, WasmEdge.sb_load_wasm (WasmEdge.exampleHost 1)
        (WasmEdge.exampleState exampleDescriptor) (some "a.wasm") 0 []
          = some (some st1.sbtest, st1) ∧
      st1.sbtest.sname = some "a.wasm" ∧ st1.freed = []) := by
  have h4 := (C10_single_thread_engine (WasmEdge.exampleHost 4)
    (WasmEdge.exampleState exampleDescriptor) (some "a.wasm") "a.wasm" 0 []).1
    (by decide) (by decide)
  have h1 := (C10_single_thread_engine (WasmEdge.exampleHost 1)
    (WasmEdge.exampleState exampleDescriptor) (some "a.wasm") "a.wasm" 0 []).2
    rfl rfl
  obtain ⟨s4, e4, n4, -, -, f4, -⟩ := h4
  obtain ⟨s1, e1, n1, -, -, -, -, f1⟩ := h1
  refine ⟨by decide, ⟨s4, e4, n4, ?_⟩, ⟨s1, e1, n1, ?_⟩⟩
  · rw [f4]
    decide
  · rw [f1]
    rfl

/-- C11: for every 64-bit handle, also one with bit 63 set (negative as an
`int64_t`), `sb_wasm_addr_decode` yields the address whose 32-bit pattern is
bits 63..32 of the handle and the size whose pattern is bits 31..0; both are
below `2 ^ 32`, nothing is sign extended.  Equivalently the handle with the
unsigned value `a * 2 ^ 32 + s`, for `a` and `s` below `2 ^ 32`, decodes to
`(a, s)`. -/
theorem C11_unsigned_decode (val a s : Nat) :
    (val < 2 ^ 64 →
      sb_wasm_addr_decode val = ((val / 2 ^ 32) % 2 ^ 32, val % 2 ^ 32) ∧
      (sb_wasm_addr_decode val).1 < 2 ^ 32 ∧ (sb_wasm_addr_decode val).2 < 2 ^ 32 ∧
      (∀ i, i < 32 → (sb_wasm_addr_decode val).1.testBit i = val.testBit (32 + i)) ∧
      (∀ i, i < 32 → (sb_wasm_addr_decode val).2.testBit i = val.testBit i)) ∧
    (a < 2 ^ 32 → s < 2 ^ 32 → sb_wasm_addr_decode (a * 2 ^ 32 + s) = (a, s)) := by
  constructor
  · intro hval
    have hd := sb_wasm_addr_decode_eq val hval
    refine ⟨hd, ?_, ?_, ?_, ?_⟩
    · rw [hd]
      exact Nat.mod_lt _ (by norm_num)
    · rw [hd]
      exact Nat.mod_lt _ (by norm_num)
    · intro i hi
      rw [hd]
      show (val / 2 ^ 32 % 2 ^ 32).testBit i = val.testBit (32 + i)
      rw [Nat.testBit_mod_two_pow, ← Nat.shiftRight_eq_div_pow, Nat.testBit_shiftRight]
      simp [hi]
    · intro i hi
      rw [hd]
      show (val % 2 ^ 32).testBit i = val.testBit i
      rw [Nat.testBit_mod_two_pow]
      simp [hi]
  · intro ha hs
    have hlt : a * 2 ^ 32 + s < 2 ^ 64 := by omega
    rw [sb_wasm_addr_decode_eq _ hlt]
    refine Prod.ext ?_ ?_
    · show (a * 2 ^ 32 + s) / 2 ^ 32 % 2 ^ 32 = a
      omega
    · show (a * 2 ^ 32 + s) % 2 ^ 32 = s
      omega

/-- C11 at the handle `0xffffffff80000001`, negative as an `int64_t`: the
address is `0xffffffff` and the size `0x80000001`; and at `a = 0x80000000`,
`s = 0xffffffff`. -/
theorem C11_unsigned_decode_witness :
    (0xffffffff80000001 : Nat) < 2 ^ 64 ∧
    sb_wasm_addr_decode 0xffffffff80000001 = (0xffffffff, 0x80000001) ∧
    sb_wasm_addr_decode (0x80000000 * 2 ^ 32 + 0xffffffff) = (0x80000000, 0xffffffff) :=
  ⟨by norm_num,
   ((C11_unsigned_decode 0xffffffff80000001 0 0).1 (by norm_num)).1.trans (by decide),
   (C11_unsigned_decode 0 0x80000000 0xffffffff).2 (by norm_num) (by norm_num)⟩

end SbWasm
